import Mathlib

/-!
Shallow embedding of `sde_project/api.py` (Global Terrorism Prediction API)
together with the training-side facts from `sde_project/train_pipeline.py`
that determine the shape of the loaded artifacts.

Conventions used throughout:
* Python floats are modelled as `ℚ`; Python ints as `ℤ`.
* The external regression model and feature scaler are out-of-scope black
  boxes (spec §1: "fit/predict contract only", "transform contract only");
  they are modelled as total functions `List ℚ → ℚ` and `List ℚ → List ℚ`.
* A `LabelEncoder` is a fixed finite map from category string to integer
  code; `transform` on an unseen string raises `ValueError`, modelled as an
  `Option`-valued lookup (`none` = would raise).
* `pandas.sort_values` is called with its default quicksort kind,
  which pandas documents as NOT stable.  It is therefore modelled
  relationally: a valid result is ANY reordering of the input that is
  sorted by the key.  Properties quantify over all valid results.
* Fallible effects (loading files from disk, the remote text-generation
  call) are modelled with `Except String`.
-/

/-- Python `round(x, 2)` rounds half to even.  `rhe q` is the integer
nearest to `q`, ties to the even integer (banker rounding). -/
def rhe (q : ℚ) : ℤ :=
  let f : ℤ := ⌊q⌋
  if q - f < 1/2 then f
  else if q - f > 1/2 then f + 1
  else if Even f then f else f + 1

/-- Rounding as `round(x, 2)` at `api.py` line 153. -/
def round2 (q : ℚ) : ℚ := (rhe (q * 100) : ℚ) / 100

/-- A value expressible with two decimal places. -/
def twoDecimals (v : ℚ) : Prop := ∃ n : ℤ, v = (n : ℚ) / 100

/-- A fitted `LabelEncoder`: a finite association of category strings to
integer codes (`train_pipeline.py` lines 48-52). -/
abbrev Encoder : Type := List (String × ℤ)

/-- Transform of a `LabelEncoder` on a single string: `some code` when the
string was seen at fit time, `none` when `transform` would raise
`ValueError` (the unseen-category case). -/
def encLookup : Encoder → String → Option ℤ
  | [], _ => none
  | (k, v) :: t, s => if k = s then some v else encLookup t s

/-- The `encoders` artifact.  `train_pipeline.py` lines 45-52 always store
exactly the three keys `attacktype1_txt`, `targtype1_txt`,
`weaptype1_txt`, so the `col in encoders` test in `api.py` line 143 is
always true for a trained artifact; the dict is modelled as a structure
with the three encoders. -/
structure Encoders where
  attack : Encoder
  targ : Encoder
  weap : Encoder

/-- The regression model: `model.predict(X)[0]` on one scaled feature row. -/
abbrev Model : Type := List ℚ → ℚ

/-- The feature scaler: `scaler.transform` on one feature row. -/
abbrev Scaler : Type := List ℚ → List ℚ

/-- Encoding step of `api.py` lines 142-147: encode one categorical field, substituting
code 0 when `transform` raises `ValueError` (unseen category). -/
def encodeField (enc : Encoder) (s : String) : ℤ :=
  match encLookup enc s with
  | some c => c
  | none => 0

/-- Request model `PredictionRequest` (`api.py` lines 28-36): all eight fields required. -/
structure PredictionRequest where
  iyear : ℤ
  imonth : ℤ
  iday : ℤ
  country : ℤ
  region : ℤ
  attacktype1_txt : String
  targtype1_txt : String
  weaptype1_txt : String

/-- The artifact slots of the process-wide globals `model`, `scaler`,
`encoders` (`api.py` lines 23-25): each is `None` until loaded. -/
structure ArtifactSlots where
  model : Option Model
  scaler : Option Scaler
  encoders : Option Encoders

/-- Result of `POST /predict`: either a JSON body
`{predicted_fatalities, status, message?}` or an `HTTPException`
(`api.py` line 156 re-raises any pipeline exception as a 500). -/
inductive PredictResponse where
  | body (predicted_fatalities : ℚ) (status : String) (message : Option String)
  | httpError (code : ℕ) (detail : String)
deriving DecidableEq

/-- Handler `predict` (`api.py` lines 126-156).  With the model and scaler given
by their (total) transform contracts, the only exception sources in the
`try` block are uses of an artifact global that is still `None`
(`col in encoders` on `None` raises `TypeError`, `scaler.transform` on
`None` raises `AttributeError`); both are caught and re-raised as
`HTTPException(500)`. -/
def predict (st : ArtifactSlots) (req : PredictionRequest) : PredictResponse :=
  match st.model with
  | none => .body 0 "warning" (some "Model not loaded.")
  | some m =>
    match st.encoders with
    | none => .httpError 500 "argument of type NoneType is not iterable"
    | some e =>
      let a : ℤ := encodeField e.attack req.attacktype1_txt
      let t : ℤ := encodeField e.targ req.targtype1_txt
      let w : ℤ := encodeField e.weap req.weaptype1_txt
      match st.scaler with
      | none => .httpError 500 "NoneType object has no attribute transform"
      | some s =>
        let feats : List ℚ :=
          [(req.iyear : ℚ), (req.imonth : ℚ), (req.iday : ℚ),
           (req.country : ℚ), (req.region : ℚ), (a : ℚ), (t : ℚ), (w : ℚ)]
        let pred : ℚ := max 0 (m (s feats))
        .body (round2 pred) "success" none

/-- A raw JSON body for `POST /predict` before validation: each of the
eight declared fields may be absent. -/
structure PredictionPayload where
  iyear : Option ℤ
  imonth : Option ℤ
  iday : Option ℤ
  country : Option ℤ
  region : Option ℤ
  attacktype1_txt : Option String
  targtype1_txt : Option String
  weaptype1_txt : Option String

/-- Pydantic validation of the request body: all eight fields of
`PredictionRequest` are declared without defaults, so parsing succeeds
exactly when every field is present. -/
def parsePredictionRequest (p : PredictionPayload) : Option PredictionRequest :=
  match p.iyear, p.imonth, p.iday, p.country, p.region,
        p.attacktype1_txt, p.targtype1_txt, p.weaptype1_txt with
  | some iy, some im, some idy, some c, some r, some a, some t, some w =>
      some ⟨iy, im, idy, c, r, a, t, w⟩
  | _, _, _, _, _, _, _, _ => none

/-- Outcome of routing a `POST /predict` body through FastAPI: a 422
validation failure (body never reaches the handler) or the response of
the handler.  The embedding is pure, so "all state unchanged" holds by
construction: no definition here mutates anything. -/
inductive RouteResult where
  | validationError (code : ℕ)
  | handled (resp : PredictResponse)
deriving DecidableEq

/-- Dispatch by FastAPI for `POST /predict`: validate, then call `predict`. -/
def predictRoute (st : ArtifactSlots) (p : PredictionPayload) : RouteResult :=
  match parsePredictionRequest p with
  | none => .validationError 422
  | some req => .handled (predict st req)

/-- One row of the in-memory dataframe `df_data` after the load-time
normalisation of `api.py` lines 53-75: `nkill`/`latitude`/`longitude`
null-filled with 0, text columns null-filled with `"Unknown"`.  The
int32/float32/category narrowing is a memory optimisation that preserves
comparison semantics for the small values involved, so fields are `ℤ`,
`ℚ` and `String`. -/
structure IncidentRecord where
  iyear : ℤ
  country : ℤ
  country_txt : String
  region : ℤ
  region_txt : String
  latitude : ℚ
  longitude : ℚ
  attacktype1_txt : String
  nkill : ℚ
  city : String
  summary : String
deriving DecidableEq

/-- One row of the precomputed `country_stats` aggregate
(`api.py` lines 78-86).  Its construction (groupby/mean/sum/count) is
delegated wholesale to the dataframe engine and no claim inspects it, so
it is carried as data. -/
structure CountryStat where
  country : String
  lat : ℚ
  lon : ℚ
  fatalities : ℚ
  incidents : ℕ
  country_id : ℤ
deriving DecidableEq

/-- The loaded dataset: the normalised dataframe rows in file order plus
the precomputed per-country aggregate. -/
structure DatasetIndex where
  df : List IncidentRecord
  country_stats : List CountryStat

/-- Response shape of `GET /globe_data`. -/
structure GlobeResponse where
  stats : List CountryStat
deriving DecidableEq

/-- Handler `get_globe_data` (`api.py` lines 96-101). -/
def get_globe_data (dst : Option DatasetIndex) : GlobeResponse :=
  match dst with
  | none => ⟨[]⟩
  | some idx => ⟨idx.country_stats⟩

/-- A Python `dict` whose iteration order matters: an association list in
insertion order with pairwise-distinct keys maintained by `dictInsert`. -/
abbrev OrderedDict : Type := List (ℤ × String)

/-- Python `d[k] = v` semantics inside `dict(zip(ids, names))`: an
existing key keeps its position and gets the new value; a new key is
appended. -/
def dictInsert (acc : OrderedDict) (kv : ℤ × String) : OrderedDict :=
  if acc.any (fun e => decide (e.1 = kv.1)) then
    acc.map (fun e => if e.1 = kv.1 then (e.1, kv.2) else e)
  else
    acc ++ [kv]

/-- Python `dict(zip(ids, names))` applied over a list of (id, name) pairs. -/
def buildDict (l : List (ℤ × String)) : OrderedDict :=
  l.foldl dictInsert []

/-- Pandas `DataFrame.drop_duplicates()` over (id, name) pairs: keep the first
occurrence of each distinct pair, in order. -/
def dedupFirst : List (ℤ × String) → List (ℤ × String) :=
  go []
where
  go (seen : List (ℤ × String)) : List (ℤ × String) → List (ℤ × String)
    | [] => []
    | x :: t => if x ∈ seen then go seen t else x :: go (x :: seen) t

/-- Lexicographic comparison of character lists by code point; Python
compares strings exactly this way. -/
def lexLeB : List Char → List Char → Bool
  | [], _ => true
  | _ :: _, [] => false
  | x :: xs, y :: ys =>
      decide (x.toNat < y.toNat) || (decide (x.toNat = y.toNat) && lexLeB xs ys)

/-- String order used by the dataframe engine when sorting name columns:
code-point lexicographic. -/
def strLeB (a b : String) : Bool := lexLeB a.data b.data

/-- A valid result of sorting pairs by their name column with the
default unstable kind: any reordering of the pairs that is ascending in
the name component. -/
def nameSorted (pairs l' : List (ℤ × String)) : Prop :=
  l'.Perm pairs ∧ l'.Pairwise (fun a b => strLeB a.2 b.2 = true)

/-- Response shape of `GET /metadata`: two insertion-ordered JSON maps. -/
structure MetadataResponse where
  countries : OrderedDict
  regions : OrderedDict
deriving DecidableEq

/-- Handler `get_metadata` (`api.py` lines 111-124), relational in the choice the
unstable sort makes among pairs with equal names.  Absent index: both
maps empty.  Otherwise: distinct (id, name) pairs, sorted by name, then
`dict(zip(...))`. -/
def MetadataRel (dst : Option DatasetIndex) (resp : MetadataResponse) : Prop :=
  match dst with
  | none => resp = ⟨[], []⟩
  | some idx =>
    ∃ cs rs,
      nameSorted (dedupFirst (idx.df.map (fun r => (r.country, r.country_txt)))) cs ∧
      nameSorted (dedupFirst (idx.df.map (fun r => (r.region, r.region_txt)))) rs ∧
      resp = ⟨buildDict cs, buildDict rs⟩

/-- Response of `GET /history` (`api.py` lines 158-173): the data-absent
error payload, the no-rows payload `{"years": [], "counts": []}`, or the
populated payload. -/
inductive HistoryResponse where
  | dataError (status message : String)
  | emptyResult
  | ok (years : List ℤ) (counts : List ℕ) (total_incidents : ℕ)
deriving DecidableEq

/-- Ascending sort of the distinct years with their counts —
`value_counts().sort_index()`.  The index values are distinct, so the
sort is unique and can be embedded with a deterministic insertion sort. -/
def yearCounts (rows : List IncidentRecord) : List (ℤ × ℕ) :=
  ((rows.map (fun r => r.iyear)).dedup.map
      (fun y => (y, (rows.filter (fun r => decide (r.iyear = y))).length))).insertionSort
    (fun a b => a.1 ≤ b.1)

/-- Handler `get_history` (`api.py` lines 158-173). -/
def get_history (dst : Option DatasetIndex) (country_id : ℤ) : HistoryResponse :=
  match dst with
  | none => .dataError "error" "Data not loaded"
  | some idx =>
    let country_df := idx.df.filter (fun r => decide (r.country = country_id))
    if country_df.isEmpty then .emptyResult
    else
      let cs := yearCounts country_df
      .ok (cs.map (fun p => p.1)) (cs.map (fun p => p.2)) country_df.length

/-- The projection of a dataframe row returned by `GET /similar`
(`api.py` line 190): fixed field set. -/
structure SimilarRecord where
  iyear : ℤ
  latitude : ℚ
  longitude : ℚ
  city : String
  country : ℤ
  country_txt : String
  nkill : ℚ
  summary : String
deriving DecidableEq

/-- Projection of `api.py` line 190. -/
def projRecord (r : IncidentRecord) : SimilarRecord :=
  ⟨r.iyear, r.latitude, r.longitude, r.city, r.country, r.country_txt, r.nkill, r.summary⟩

/-- Response of `GET /similar` (`api.py` lines 175-191). -/
inductive SimilarResponse where
  | dataError (status message : String)
  | incidents (records : List SimilarRecord)
deriving DecidableEq

/-- The filter stage of `get_similar` (`api.py` lines 182-188): exact
region and attack-type match, then drop rows with latitude 0. -/
def similarFiltered (df : List IncidentRecord) (region : ℤ) (attack_type : String) :
    List IncidentRecord :=
  (df.filter (fun r => decide (r.region = region) && decide (r.attacktype1_txt = attack_type))).filter
    (fun r => decide (r.latitude ≠ 0))

/-- Sorted by year descending. -/
def yearDescSorted (l : List IncidentRecord) : Prop :=
  l.Pairwise (fun a b => b.iyear ≤ a.iyear)

/-- Handler `get_similar` (`api.py` lines 175-191), relational in the choice the
default (unstable quicksort) `sort_values` makes among records
with equal year: a valid response arises from ANY year-descending
reordering of the filtered rows, then `head(50)` and the projection. -/
def SimilarRel (dst : Option DatasetIndex) (region : ℤ) (attack_type : String)
    (resp : SimilarResponse) : Prop :=
  match dst with
  | none => resp = .dataError "error" "Data not loaded"
  | some idx =>
    ∃ l', l'.Perm (similarFiltered idx.df region attack_type) ∧ yearDescSorted l' ∧
      resp = .incidents ((l'.take 50).map projRecord)

/-- Body of `POST /genai/advisory` (`api.py` line 194): a plain dict, so
every field is optional; `request.get` supplies defaults. -/
structure AdvisoryRequest where
  country : Option String
  year : Option String
  summary_text : Option String
  attack_type : Option String

/-- Local `country` of `api.py` line 196. -/
def advCountry (req : AdvisoryRequest) : String := req.country.getD "Unknown Country"

/-- Local `year` of `api.py` line 197. -/
def advYear (req : AdvisoryRequest) : String := req.year.getD "Unknown Year"

/-- Local `summary_text` of `api.py` line 198. -/
def advSummary (req : AdvisoryRequest) : String := req.summary_text.getD ""

/-- Value of `request.get` with key attack_type and default violent, at `api.py` line 235. -/
def advAttack (req : AdvisoryRequest) : String := req.attack_type.getD "violent"

/-- Truthiness of `api_key` at `api.py` line 202: `os.getenv` yields
`None` when unset, and both `None` and the empty string are falsy. -/
def keyTruthy : Option String → Bool
  | none => false
  | some k => decide (k ≠ "")

/-- Response shape of `POST /genai/advisory`. -/
structure AdvisoryResponse where
  advisory : String
  source : String
deriving DecidableEq

/-- Template text before the country in the mock advisory
(`api.py` line 231); the six characters after the asterisks are the
literal bytes of the source file. -/
def mockPre : String :=
  "\n        **\u00e2\u009a\u00a0\u00ef\u00b8\u008f Simulated Security Advisory for "

/-- Template text between the country and the attack type in the mock
advisory (`api.py` lines 231-235). -/
def mockMid : String :=
  "**\n        (API Key not found or Error. Running in Demo Mode)\n        \n        *   **Threat Level:** High (Simulated)\n        *   **Key Risk:** Potential for "

/-- Template text after the attack type in the mock advisory
(`api.py` lines 235-237). -/
def mockPost : String :=
  " incidents in public areas.\n        *   **Advice:** Avoid large gatherings and monitor local news outlets.\n        "

/-- The interpolated mock advisory f-string (`api.py` lines 230-237).
Note it embeds `country` and `attack_type` but not `year`. -/
def mockText (req : AdvisoryRequest) : String :=
  mockPre ++ advCountry req ++ mockMid ++ advAttack req ++ mockPost

/-- The mock response (`api.py` lines 229-239). -/
def mockAdvisory (req : AdvisoryRequest) : AdvisoryResponse :=
  ⟨mockText req, "Mock (Demo Mode)"⟩

/-- The prompt f-string of `api.py` lines 209-219, embedding country,
year and incident summary. -/
def advisoryPrompt (req : AdvisoryRequest) : String :=
  "\n            You are a global security analyst. Based on the following recent terrorism incident data in "
    ++ advCountry req ++ " (circa " ++ advYear req
    ++ "), \n            provide a concise 3-bullet point travel safety advisory for civilians.\n            \n            Incident Context: \""
    ++ advSummary req
    ++ "\"\n            \n            Format:\n            - Threat Level: [Low/Medium/High]\n            - Key Risk: [One sentence]\n            - Advice: [One sentence]\n            "

/-- Handler `generate_advisory` (`api.py` lines 193-239).  `genCall` stands for
the whole external block (`import`, `configure`, `generate_content`,
`.text`); any exception it raises is the `.error` case, caught at line
223 and resolved to the mock response. -/
def generate_advisory (apiKey : Option String) (genCall : String → Except String String)
    (req : AdvisoryRequest) : AdvisoryResponse :=
  if keyTruthy apiKey then
    match genCall (advisoryPrompt req) with
    | .ok text => ⟨text, "Gemini Pro"⟩
    | .error _ => mockAdvisory req
  else
    mockAdvisory req

/-- Decides whether the character list starts with the given pattern. -/
def startsWithChars : List Char → List Char → Bool
  | _, [] => true
  | [], _ :: _ => false
  | x :: xs, y :: ys => decide (x = y) && startsWithChars xs ys

/-- Decides whether the pattern occurs contiguously in the list. -/
def containsChars : List Char → List Char → Bool
  | [], sub => startsWithChars [] sub
  | x :: t, sub => startsWithChars (x :: t) sub || containsChars t sub

/-- Substring occurrence on strings, used to state "the advisory embeds
the supplied country/year". -/
def strContains (s sub : String) : Bool := containsChars s.data sub.data

/-- The filesystem and loader environment seen by `load_artifacts`
(`api.py` lines 38-94): existence of the two guard-checked files and the
(fallible) outcome of each `joblib.load` / dataset read.  A dataset read
failure covers any exception in lines 52-88. -/
structure LoaderFs where
  modelFileExists : Bool
  loadModel : Except String Model
  loadScaler : Except String Scaler
  loadEncoders : Except String Encoders
  dataFileExists : Bool
  loadData : Except String DatasetIndex

/-- The process-wide globals after startup. -/
structure ServerState where
  arts : ArtifactSlots
  df_data : Option DatasetIndex

/-- Globals before `load_artifacts` runs (`api.py` lines 23-26). -/
def initServerState : ServerState := ⟨⟨none, none, none⟩, none⟩

/-- The dataset-loading half of `load_artifacts` (`api.py` lines 51-91):
runs only if control reaches it; a raise during it keeps whatever was
already assigned. -/
def loadDataPhase (st : ServerState) (fs : LoaderFs) : ServerState :=
  if fs.dataFileExists then
    match fs.loadData with
    | .error _ => st
    | .ok d => { st with df_data := some d }
  else st

/-- Startup hook `load_artifacts` (`api.py` lines 38-94): sequential assignments to
the globals inside one `try`; any exception is caught at line 93, so a
failure part-way leaves the earlier assignments in place and skips the
rest. -/
def load_artifacts (fs : LoaderFs) : ServerState :=
  if fs.modelFileExists then
    match fs.loadModel with
    | .error _ => initServerState
    | .ok m =>
      match fs.loadScaler with
      | .error _ => { initServerState with arts := ⟨some m, none, none⟩ }
      | .ok s =>
        match fs.loadEncoders with
        | .error _ => { initServerState with arts := ⟨some m, some s, none⟩ }
        | .ok e => loadDataPhase ⟨⟨some m, some s, some e⟩, none⟩ fs
  else loadDataPhase initServerState fs

/-- Consistency of the artifact bundle as the spec postulates it: either
the model slot is empty or all three slots are filled. -/
def bundleConsistent (a : ArtifactSlots) : Prop :=
  (a.model.isSome ∧ a.scaler.isSome ∧ a.encoders.isSome) ∨
    (a.model.isNone ∧ a.scaler.isNone ∧ a.encoders.isNone)

/-! Helper lemmas about rounding. -/

theorem rhe_nonneg {q : ℚ} (h : 0 ≤ q) : 0 ≤ rhe q := by
  unfold rhe
  have hf : (0:ℤ) ≤ ⌊q⌋ := Int.floor_nonneg.mpr h
  dsimp only
  split_ifs <;> omega

theorem round2_nonneg {q : ℚ} (h : 0 ≤ q) : 0 ≤ round2 q := by
  unfold round2
  have h1 : (0:ℤ) ≤ rhe (q * 100) := rhe_nonneg (by positivity)
  have h2 : (0:ℚ) ≤ (rhe (q * 100) : ℚ) := by exact_mod_cast h1
  exact div_nonneg h2 (by norm_num)

theorem round2_twoDecimals (q : ℚ) : twoDecimals (round2 q) := ⟨rhe (q * 100), rfl⟩

/-! Concrete artifacts and requests used by witnesses. -/

def exModel : Model := fun feats => feats.foldl (· + ·) 0

def exScaler : Scaler := fun feats => feats

def exEncoders : Encoders :=
  ⟨[("Bombing/Explosion", 1)], [("Military", 3)], [("Explosives", 2)]⟩

def exArtifacts : ArtifactSlots := ⟨some exModel, some exScaler, some exEncoders⟩

def exRequest : PredictionRequest :=
  ⟨2017, 1, 1, 4, 6, "Bombing/Explosion", "Military", "Explosives"⟩

def exRequestUnseen : PredictionRequest :=
  ⟨2017, 1, 1, 4, 6, "Armed Assault", "Military", "Explosives"⟩

/-- C1: for every valid `PredictionRequest` (all eight fields present),
with the artifact bundle in a consistent state (model absent, or all
three artifacts loaded — the only states the spec allows, cf. C7),
`predict` returns a JSON body and never an HTTP error: the value is
nonnegative with two decimal places, and the status is success or
warning. -/
theorem predict_valid_request_ok (st : ArtifactSlots) (req : PredictionRequest)
    (hc : bundleConsistent st) :
    ∃ v status msg, predict st req = .body v status msg ∧
      0 ≤ v ∧ twoDecimals v ∧ (status = "success" ∨ status = "warning") := by
  obtain ⟨om, os, oe⟩ := st
  rcases hc with ⟨hm, hs, he⟩ | ⟨hm, hs, he⟩
  · rcases Option.isSome_iff_exists.mp hm with ⟨m, hm'⟩
    rcases Option.isSome_iff_exists.mp hs with ⟨s, hs'⟩
    rcases Option.isSome_iff_exists.mp he with ⟨e, he'⟩
    subst hm' hs' he'
    exact ⟨_, _, _, rfl, round2_nonneg (le_max_left _ _), round2_twoDecimals _, Or.inl rfl⟩
  · have hm' : om = none := Option.isNone_iff_eq_none.mp hm
    subst hm'
    exact ⟨0, "warning", some "Model not loaded.", rfl, le_refl 0, ⟨0, by norm_num⟩, Or.inr rfl⟩

/-- C1 witness: a concrete loaded bundle and a concrete valid request. -/
theorem predict_valid_request_ok_witness :
    bundleConsistent exArtifacts ∧
    ∃ v status msg, predict exArtifacts exRequest = .body v status msg ∧
      0 ≤ v ∧ twoDecimals v ∧ (status = "success" ∨ status = "warning") :=
  ⟨Or.inl ⟨rfl, rfl, rfl⟩,
    predict_valid_request_ok exArtifacts exRequest (Or.inl ⟨rfl, rfl, rfl⟩)⟩

/-- C2: when the artifacts are loaded and at least one of the three
categorical strings of the request was not seen in training (its encoder
lookup would raise), the encoding does not raise: every unseen field is
replaced by the fixed default code 0, and the request still produces a
numeric success response — the lookup error never propagates. -/
theorem predict_unseen_category_defaults (st : ArtifactSlots) (req : PredictionRequest)
    (m : Model) (s : Scaler) (e : Encoders)
    (hm : st.model = some m) (hs : st.scaler = some s) (he : st.encoders = some e)
    (hunseen : encLookup e.attack req.attacktype1_txt = none ∨
               encLookup e.targ req.targtype1_txt = none ∨
               encLookup e.weap req.weaptype1_txt = none) :
    (encLookup e.attack req.attacktype1_txt = none →
        encodeField e.attack req.attacktype1_txt = 0) ∧
    (encLookup e.targ req.targtype1_txt = none →
        encodeField e.targ req.targtype1_txt = 0) ∧
    (encLookup e.weap req.weaptype1_txt = none →
        encodeField e.weap req.weaptype1_txt = 0) ∧
    ∃ v, predict st req = .body v "success" none ∧ 0 ≤ v := by
  obtain ⟨om, os, oe⟩ := st
  subst hm hs he
  exact ⟨fun h => by simp [encodeField, h], fun h => by simp [encodeField, h],
    fun h => by simp [encodeField, h], _, rfl, round2_nonneg (le_max_left _ _)⟩

/-- C2 witness: a request whose attack-type string is absent from the
concrete attack encoder. -/
theorem predict_unseen_category_defaults_witness :
    (exArtifacts.model = some exModel ∧ exArtifacts.scaler = some exScaler ∧
      exArtifacts.encoders = some exEncoders ∧
      encLookup exEncoders.attack exRequestUnseen.attacktype1_txt = none) ∧
    ((encLookup exEncoders.attack exRequestUnseen.attacktype1_txt = none →
        encodeField exEncoders.attack exRequestUnseen.attacktype1_txt = 0) ∧
     (encLookup exEncoders.targ exRequestUnseen.targtype1_txt = none →
        encodeField exEncoders.targ exRequestUnseen.targtype1_txt = 0) ∧
     (encLookup exEncoders.weap exRequestUnseen.weaptype1_txt = none →
        encodeField exEncoders.weap exRequestUnseen.weaptype1_txt = 0) ∧
     ∃ v, predict exArtifacts exRequestUnseen = .body v "success" none ∧ 0 ≤ v) :=
  ⟨⟨rfl, rfl, rfl, by decide⟩,
    predict_unseen_category_defaults exArtifacts exRequestUnseen exModel exScaler exEncoders
      rfl rfl rfl (Or.inl (by decide))⟩

theorem parse_isSome_eq (p : PredictionPayload) :
    (parsePredictionRequest p).isSome =
      (p.iyear.isSome && p.imonth.isSome && p.iday.isSome && p.country.isSome &&
       p.region.isSome && p.attacktype1_txt.isSome && p.targtype1_txt.isSome &&
       p.weaptype1_txt.isSome) := by
  obtain ⟨iy, im, idy, c, r, a, t, w⟩ := p
  cases iy <;> cases im <;> cases idy <;> cases c <;> cases r <;>
    cases a <;> cases t <;> cases w <;> rfl

/-- C8: a prediction payload missing at least one of the eight required
fields fails validation with a 422 before the handler runs — the route
result is the validation error for every artifact state, so `predict` is
never invoked (and the embedding being pure, no state changes). -/
theorem predict_missing_field_422 (st : ArtifactSlots) (p : PredictionPayload)
    (h : p.iyear = none ∨ p.imonth = none ∨ p.iday = none ∨ p.country = none ∨
         p.region = none ∨ p.attacktype1_txt = none ∨ p.targtype1_txt = none ∨
         p.weaptype1_txt = none) :
    predictRoute st p = .validationError 422 := by
  cases hp : parsePredictionRequest p with
  | none => simp [predictRoute, hp]
  | some req =>
    have hs := parse_isSome_eq p
    rw [hp] at hs
    rcases h with h|h|h|h|h|h|h|h <;> rw [h] at hs <;> simp at hs

/-- C8 witness: the payload containing only `iyear`. -/
theorem predict_missing_field_422_witness :
    ((⟨some 2017, none, none, none, none, none, none, none⟩ :
        PredictionPayload).imonth = none) ∧
    predictRoute exArtifacts ⟨some 2017, none, none, none, none, none, none, none⟩ =
      .validationError 422 :=
  ⟨rfl, predict_missing_field_422 exArtifacts _ (Or.inr (Or.inl rfl))⟩

/-! Helper facts about the `similar` filter stage, and witness fixtures. -/

instance (l : List IncidentRecord) : Decidable (yearDescSorted l) :=
  inferInstanceAs
    (Decidable (List.Pairwise (fun a b : IncidentRecord => b.iyear ≤ a.iyear) l))

theorem similarFiltered_mem_latitude {df : List IncidentRecord} {region : ℤ} {atk : String}
    {r : IncidentRecord} (hr : r ∈ similarFiltered df region atk) : r.latitude ≠ 0 := by
  unfold similarFiltered at hr
  rw [List.mem_filter] at hr
  exact of_decide_eq_true hr.2

def recW1 : IncidentRecord :=
  ⟨2021, 4, "Afghanistan", 6, "South Asia", 34, 65, "Bombing/Explosion", 1, "Kabul",
    "Incident 1"⟩

def recW2 : IncidentRecord :=
  ⟨2020, 4, "Afghanistan", 6, "South Asia", 35, 66, "Bombing/Explosion", 2, "Kabul",
    "Incident 2"⟩

def idxW : DatasetIndex := ⟨[recW2, recW1], []⟩

def recTieA : IncidentRecord :=
  ⟨2000, 10, "Iraq", 7, "Middle East", 1, 1, "Bombing/Explosion", 0, "Alpha",
    "earlier in the index"⟩

def recTieB : IncidentRecord :=
  ⟨2000, 10, "Iraq", 7, "Middle East", 2, 2, "Bombing/Explosion", 0, "Beta",
    "later in the index"⟩

def idxTie : DatasetIndex := ⟨[recTieA, recTieB], []⟩

/-- C3: every valid response of `GET /similar` on a loaded index has at
most 50 records, no record with latitude 0, and records sorted by year
in descending order. -/
theorem get_similar_bounded (idx : DatasetIndex) (region : ℤ) (atk : String)
    (resp : SimilarResponse) (h : SimilarRel (some idx) region atk resp) :
    ∃ recs, resp = .incidents recs ∧ recs.length ≤ 50 ∧
      (∀ r ∈ recs, r.latitude ≠ 0) ∧
      recs.Pairwise (fun a b => b.iyear ≤ a.iyear) := by
  obtain ⟨l', hperm, hsort, hresp⟩ := h
  refine ⟨(l'.take 50).map projRecord, hresp, ?_, ?_, ?_⟩
  · rw [List.length_map, List.length_take]
    exact inf_le_left
  · intro r hr
    rw [List.mem_map] at hr
    obtain ⟨r₀, hr₀, rfl⟩ := hr
    have hmem : r₀ ∈ similarFiltered idx.df region atk :=
      hperm.mem_iff.mp (List.mem_of_mem_take hr₀)
    exact similarFiltered_mem_latitude hmem
  · exact List.pairwise_map.mpr
      (List.Pairwise.sublist (List.take_sublist 50 l') hsort)

/-- C3 witness: a concrete two-row index matching the query. -/
theorem get_similar_bounded_witness :
    SimilarRel (some idxW) 6 "Bombing/Explosion"
        (.incidents [projRecord recW1, projRecord recW2]) ∧
    ∃ recs, SimilarResponse.incidents [projRecord recW1, projRecord recW2] =
        .incidents recs ∧ recs.length ≤ 50 ∧ (∀ r ∈ recs, r.latitude ≠ 0) ∧
      recs.Pairwise (fun a b => b.iyear ≤ a.iyear) :=
  ⟨⟨[recW1, recW2], by decide, by decide, rfl⟩,
    get_similar_bounded idxW 6 "Bombing/Explosion" _
      ⟨[recW1, recW2], by decide, by decide, rfl⟩⟩

/-- C5 counterexample: with the unstable default sort, a valid response
may return two matching records of equal year in the reverse of their
index order, so the output need not equal the stable
(`insertionSort`) ordering the claim describes. -/
theorem similar_stable_ties_counterexample :
    ¬ (∀ (idx : DatasetIndex) (region : ℤ) (atk : String) (recs : List SimilarRecord),
        SimilarRel (some idx) region atk (.incidents recs) →
        recs = (((similarFiltered idx.df region atk).insertionSort
            (fun a b => b.iyear ≤ a.iyear)).take 50).map projRecord) := by
  intro h
  have hrel : SimilarRel (some idxTie) 7 "Bombing/Explosion"
      (.incidents [projRecord recTieB, projRecord recTieA]) :=
    ⟨[recTieB, recTieA], by decide, by decide, rfl⟩
  have hcontra := h idxTie 7 "Bombing/Explosion" _ hrel
  exact absurd hcontra (by decide)

/-- C5 amended: the order between records of DIFFERENT years is
guaranteed (larger year first, as year-descending pairwise order), and
every returned record is a projection of a matching filtered row, but
records of equal year may appear in either order because `sort_values`
uses the unstable default quicksort. -/
theorem similar_year_order_guaranteed (idx : DatasetIndex) (region : ℤ) (atk : String)
    (recs : List SimilarRecord)
    (h : SimilarRel (some idx) region atk (.incidents recs)) :
    recs.Pairwise (fun a b => b.iyear ≤ a.iyear) ∧
    ∀ r ∈ recs, ∃ r₀ ∈ similarFiltered idx.df region atk, r = projRecord r₀ := by
  obtain ⟨l', hperm, hsort, hresp⟩ := h
  injection hresp with hr
  subst hr
  constructor
  · exact List.pairwise_map.mpr
      (List.Pairwise.sublist (List.take_sublist 50 l') hsort)
  · intro r hr
    rw [List.mem_map] at hr
    obtain ⟨r₀, hr₀, rfl⟩ := hr
    exact ⟨r₀, hperm.mem_iff.mp (List.mem_of_mem_take hr₀), rfl⟩

/-- C5 amended witness: the equal-year fixture instantiates the amended
theorem. -/
theorem similar_year_order_guaranteed_witness :
    SimilarRel (some idxTie) 7 "Bombing/Explosion"
        (.incidents [projRecord recTieB, projRecord recTieA]) ∧
    ([projRecord recTieB, projRecord recTieA].Pairwise (fun a b => b.iyear ≤ a.iyear) ∧
      ∀ r ∈ [projRecord recTieB, projRecord recTieA],
        ∃ r₀ ∈ similarFiltered idxTie.df 7 "Bombing/Explosion", r = projRecord r₀) :=
  ⟨⟨[recTieB, recTieA], by decide, by decide, rfl⟩,
    similar_year_order_guaranteed idxTie 7 "Bombing/Explosion" _
      ⟨[recTieB, recTieA], by decide, by decide, rfl⟩⟩

/-- C4 counterexample: with the dataset index absent, `GET /history`
returns the error-shaped payload `status="error"`, not an empty-result
payload. -/
theorem history_absent_error_shaped :
    get_history none 4 = .dataError "error" "Data not loaded" ∧
    HistoryResponse.dataError "error" "Data not loaded" ≠ .emptyResult ∧
    HistoryResponse.dataError "error" "Data not loaded" ≠ .ok [] [] 0 :=
  ⟨rfl, by decide, by decide⟩

/-- C4 amended: with the dataset index absent, `globe_data` and
`metadata` degrade to empty results, while `history` and `similar`
return an HTTP-200 payload with status "error" and message
"Data not loaded"; no endpoint raises. -/
theorem absent_dataset_degradation (cid region : ℤ) (atk : String) :
    get_history none cid = .dataError "error" "Data not loaded" ∧
    (∀ resp, SimilarRel none region atk resp ↔
        resp = .dataError "error" "Data not loaded") ∧
    get_globe_data none = ⟨[]⟩ ∧
    (∀ resp, MetadataRel none resp ↔ resp = ⟨[], []⟩) :=
  ⟨rfl, fun _ => Iff.rfl, rfl, fun _ => Iff.rfl⟩

/-! String containment helper lemmas. -/

theorem startsWithChars_append (s q : List Char) : startsWithChars (s ++ q) s = true := by
  induction s with
  | nil => cases q <;> rfl
  | cons c cs ih => simp [startsWithChars, ih]

theorem containsChars_nil (l : List Char) : containsChars l [] = true := by
  cases l <;> simp [containsChars, startsWithChars]

theorem containsChars_self_append (s q : List Char) : containsChars (s ++ q) s = true := by
  cases s with
  | nil => exact containsChars_nil q
  | cons c cs =>
    show (startsWithChars ((c :: cs) ++ q) (c :: cs) ||
        containsChars (cs ++ q) (c :: cs)) = true
    rw [startsWithChars_append, Bool.true_or]

theorem containsChars_append_left (p l sub : List Char) (h : containsChars l sub = true) :
    containsChars (p ++ l) sub = true := by
  induction p with
  | nil => exact h
  | cons x xs ih => simp [containsChars, ih]

theorem strData_append (a b : String) : (a ++ b).data = a.data ++ b.data := rfl

/-! Advisory fixtures. -/

def advReq6 : AdvisoryRequest := ⟨some "Examplestan", some "2020", some "", some "armed"⟩

def advReqTest : AdvisoryRequest :=
  ⟨some "TestLand", some "2025", some "A test incident occurred.", none⟩

def advReqY1 : AdvisoryRequest := ⟨some "Norway", some "1999", some "summary one", some "vehicle"⟩

def advReqY2 : AdvisoryRequest := ⟨some "Norway", some "2024", some "summary two", some "vehicle"⟩

set_option maxRecDepth 100000 in
/-- C6 counterexample: with no credential configured, the fallback
advisory for a request with year "2020" does not embed the year — the
mock template interpolates only country and attack type — so the claim
that the fallback embeds the supplied country AND year is false. -/
theorem advisory_fallback_counterexample :
    ¬ (∀ (key : Option String) (gen : String → Except String String) (req : AdvisoryRequest),
        (keyTruthy key = false ∨ ∃ e, gen (advisoryPrompt req) = .error e) →
        generate_advisory key gen req = mockAdvisory req ∧
        strContains (generate_advisory key gen req).advisory (advCountry req) = true ∧
        strContains (generate_advisory key gen req).advisory (advYear req) = true) := by
  intro h
  have hy := (h none (fun _ => .error "boom") advReq6 (Or.inl rfl)).2.2
  exact absurd hy (by decide)

/-- C6 amended: on a missing/empty credential or any failure of the
external call, `generate_advisory` returns the deterministic mock
response (the fallback, labelled "Mock (Demo Mode)") without raising; the
advisory embeds the supplied country and attack type and is non-empty —
but it does not embed the year. -/
theorem advisory_fallback_no_raise (key : Option String)
    (gen : String → Except String String) (req : AdvisoryRequest)
    (h : keyTruthy key = false ∨ ∃ e, gen (advisoryPrompt req) = .error e) :
    generate_advisory key gen req = mockAdvisory req ∧
    (generate_advisory key gen req).source = "Mock (Demo Mode)" ∧
    strContains (generate_advisory key gen req).advisory (advCountry req) = true ∧
    strContains (generate_advisory key gen req).advisory (advAttack req) = true ∧
    (generate_advisory key gen req).advisory ≠ "" := by
  have hmock : generate_advisory key gen req = mockAdvisory req := by
    rcases h with h | ⟨e, he⟩
    · simp [generate_advisory, h]
    · cases hk : keyTruthy key
      · simp [generate_advisory, hk]
      · simp [generate_advisory, hk, he]
  refine ⟨hmock, ?_, ?_, ?_, ?_⟩ <;> rw [hmock]
  · rfl
  · show strContains (mockText req) (advCountry req) = true
    simp only [strContains, mockText, strData_append, List.append_assoc]
    exact containsChars_append_left _ _ _ (containsChars_self_append _ _)
  · show strContains (mockText req) (advAttack req) = true
    simp only [strContains, mockText, strData_append, List.append_assoc]
    exact containsChars_append_left _ _ _ (containsChars_append_left _ _ _
      (containsChars_append_left _ _ _ (containsChars_self_append _ _)))
  · show mockText req ≠ ""
    intro he
    have hlen := congrArg String.length he
    simp only [mockText, String.length_append] at hlen
    have hpre : 0 < mockPre.length := by decide
    have hnil : ("" : String).length = 0 := rfl
    rw [hnil] at hlen
    omega

/-- C6 amended witness: the unit-test request with no credential and a
failing external call. -/
theorem advisory_fallback_no_raise_witness :
    keyTruthy none = false ∧
    (generate_advisory none (fun _ => .error "boom") advReqTest = mockAdvisory advReqTest ∧
     (generate_advisory none (fun _ => .error "boom") advReqTest).source = "Mock (Demo Mode)" ∧
     strContains (generate_advisory none (fun _ => .error "boom") advReqTest).advisory
        (advCountry advReqTest) = true ∧
     strContains (generate_advisory none (fun _ => .error "boom") advReqTest).advisory
        (advAttack advReqTest) = true ∧
     (generate_advisory none (fun _ => .error "boom") advReqTest).advisory ≠ "") :=
  ⟨rfl, advisory_fallback_no_raise none (fun _ => .error "boom") advReqTest (Or.inl rfl)⟩

/-- C10: with no credential configured, the advisory response is a
function of only the country and attack-type fields of the request — two
requests agreeing on those fields (and any generators) receive identical
responses, whatever their year or summary text. -/
theorem advisory_no_key_const (key : Option String)
    (gen₁ gen₂ : String → Except String String) (r₁ r₂ : AdvisoryRequest)
    (hk : keyTruthy key = false)
    (hc : r₁.country = r₂.country) (ha : r₁.attack_type = r₂.attack_type) :
    generate_advisory key gen₁ r₁ = generate_advisory key gen₂ r₂ := by
  simp [generate_advisory, hk, mockAdvisory, mockText, advCountry, advAttack, hc, ha]

/-- C10 witness: two concrete requests differing in year and summary but
agreeing on country and attack type. -/
theorem advisory_no_key_const_witness :
    (keyTruthy none = false ∧ advReqY1.country = advReqY2.country ∧
      advReqY1.attack_type = advReqY2.attack_type ∧ advReqY1.year ≠ advReqY2.year ∧
      advReqY1.summary_text ≠ advReqY2.summary_text) ∧
    generate_advisory none (fun _ => .ok "A") advReqY1 =
      generate_advisory none (fun _ => .error "B") advReqY2 :=
  ⟨⟨rfl, rfl, rfl, by decide, by decide⟩,
    advisory_no_key_const none (fun _ => .ok "A") (fun _ => .error "B") advReqY1 advReqY2
      rfl rfl rfl⟩

/-! Loader fixtures and helper lemma. -/

def exModelZero : Model := fun _ => 0

def fsScalerMissing : LoaderFs :=
  ⟨true, .ok exModelZero, .error "FileNotFoundError: scaler.joblib",
   .error "not reached", false, .error "not reached"⟩

theorem loadDataPhase_arts (st : ServerState) (fs : LoaderFs) :
    (loadDataPhase st fs).arts = st.arts := by
  unfold loadDataPhase
  rcases hd : fs.dataFileExists <;> simp [hd]
  rcases hl : fs.loadData <;> simp [hl]

/-- C7 counterexample: the incomplete-bundle state IS reachable — when
the model file exists and the model loads but the scaler load raises,
startup leaves the model present and scaler/encoders absent, and in that
state `predict` surfaces an HTTP 500 instead of the model-not-loaded
warning. -/
theorem load_incomplete_state_reachable :
    ¬ bundleConsistent (load_artifacts fsScalerMissing).arts ∧
    predict (load_artifacts fsScalerMissing).arts exRequest =
      .httpError 500 "argument of type NoneType is not iterable" := by
  have harts : (load_artifacts fsScalerMissing).arts = ⟨some exModelZero, none, none⟩ := rfl
  constructor
  · rw [harts]
    rintro (⟨-, hs, -⟩ | ⟨hm, -, -⟩)
    · exact Bool.noConfusion hs
    · exact Bool.noConfusion hm
  · rw [harts]
    rfl

/-- C7 amended: the bundle is all-or-nothing on the paths the spec
anticipated — model file absent or model load failing loads nothing (and
`predict` then degrades to the warning), and three successful loads fill
all three slots — but when the model file exists, the model loads and
the scaler load fails, the reachable state holds the model without
scaler/encoders, and `predict` there returns a 500 error instead of the
warning. -/
theorem load_artifacts_bundle_paths (fs : LoaderFs) :
    (fs.modelFileExists = false → (load_artifacts fs).arts = ⟨none, none, none⟩) ∧
    (∀ err, fs.loadModel = .error err → fs.modelFileExists = true →
        (load_artifacts fs).arts = ⟨none, none, none⟩) ∧
    (∀ m s e, fs.modelFileExists = true → fs.loadModel = .ok m → fs.loadScaler = .ok s →
        fs.loadEncoders = .ok e → (load_artifacts fs).arts = ⟨some m, some s, some e⟩) ∧
    (∀ req, predict ⟨none, none, none⟩ req = .body 0 "warning" (some "Model not loaded.")) ∧
    (∀ m err, fs.modelFileExists = true → fs.loadModel = .ok m →
        fs.loadScaler = .error err →
        (load_artifacts fs).arts = ⟨some m, none, none⟩ ∧
        ∀ req, predict (load_artifacts fs).arts req =
          .httpError 500 "argument of type NoneType is not iterable") := by
  refine ⟨?_, ?_, ?_, fun req => rfl, ?_⟩
  · intro h
    simp [load_artifacts, h, loadDataPhase_arts, initServerState]
  · intro err herr hex
    simp [load_artifacts, hex, herr, initServerState]
  · intro m s e hex hm hs he
    simp [load_artifacts, hex, hm, hs, he, loadDataPhase_arts]
  · intro m err hex hm hs
    have harts : (load_artifacts fs).arts = ⟨some m, none, none⟩ := by
      simp [load_artifacts, hex, hm, hs, initServerState]
    exact ⟨harts, fun req => by rw [harts]; rfl⟩

/-- C7 amended witness: the scaler-missing loader environment
instantiates the incomplete-bundle clause of the amended theorem. -/
theorem load_artifacts_bundle_paths_witness :
    (fsScalerMissing.modelFileExists = true ∧ fsScalerMissing.loadModel = .ok exModelZero ∧
      fsScalerMissing.loadScaler = .error "FileNotFoundError: scaler.joblib") ∧
    (load_artifacts fsScalerMissing).arts = ⟨some exModelZero, none, none⟩ :=
  ⟨⟨rfl, rfl, rfl⟩,
    ((load_artifacts_bundle_paths fsScalerMissing).2.2.2.2 exModelZero
        "FileNotFoundError: scaler.joblib" rfl rfl rfl).1⟩

/-! Properties of the ordered-dict construction used by `get_metadata`. -/

/-- The ids of a map contain no duplicates. -/
def keysNodup (d : OrderedDict) : Prop := (d.map (fun e => e.1)).Nodup

/-- The entries of a map are in ascending name order. -/
def namesAscending (d : OrderedDict) : Prop :=
  d.Pairwise (fun a b => strLeB a.2 b.2 = true)

instance (d : OrderedDict) : Decidable (namesAscending d) :=
  inferInstanceAs (Decidable (List.Pairwise (fun a b : ℤ × String => strLeB a.2 b.2 = true) d))

instance (d : OrderedDict) : Decidable (keysNodup d) :=
  inferInstanceAs (Decidable (List.Nodup (List.map (fun e : ℤ × String => e.1) d)))

theorem keysNodup_dictInsert (acc : OrderedDict) (kv : ℤ × String) (h : keysNodup acc) :
    keysNodup (dictInsert acc kv) := by
  unfold keysNodup at *
  unfold dictInsert
  by_cases ha : acc.any (fun e => decide (e.1 = kv.1)) = true
  · rw [if_pos ha, List.map_map]
    have hmaps : acc.map ((fun e : ℤ × String => e.1) ∘
        (fun e : ℤ × String => if e.1 = kv.1 then (e.1, kv.2) else e)) =
        acc.map (fun e => e.1) := by
      apply List.map_congr_left
      intro e _
      by_cases he : e.1 = kv.1 <;> simp [he]
    rw [hmaps]
    exact h
  · rw [if_neg ha, List.map_append, List.nodup_append]
    refine ⟨h, List.nodup_singleton _, ?_⟩
    simp only [List.map_cons, List.map_nil]
    rw [List.disjoint_singleton]
    intro hmem
    rw [List.mem_map] at hmem
    obtain ⟨e, he, hke⟩ := hmem
    exact ha (List.any_eq_true.mpr ⟨e, he, by simp [hke]⟩)

theorem keysNodup_foldl (l : List (ℤ × String)) :
    ∀ acc : OrderedDict, keysNodup acc → keysNodup (l.foldl dictInsert acc) := by
  induction l with
  | nil => exact fun acc h => h
  | cons x t ih => exact fun acc h => ih _ (keysNodup_dictInsert _ _ h)

theorem keysNodup_buildDict (l : List (ℤ × String)) : keysNodup (buildDict l) :=
  keysNodup_foldl l [] (by simp [keysNodup])

theorem foldl_dictInsert_append (l : List (ℤ × String)) :
    ∀ acc : OrderedDict, ((acc ++ l).map (fun e => e.1)).Nodup →
      l.foldl dictInsert acc = acc ++ l := by
  induction l with
  | nil => intro acc _; simp
  | cons x t ih =>
    intro acc h
    rw [List.map_append, List.map_cons] at h
    have hx : x.1 ∉ acc.map (fun e => e.1) := by
      have h2 := List.nodup_middle.mp h
      rw [List.nodup_cons] at h2
      intro hc
      exact h2.1 (List.mem_append_left _ hc)
    have hanyf : acc.any (fun e => decide (e.1 = x.1)) = false := by
      rw [List.any_eq_false]
      intro e he
      simp only [decide_eq_true_eq]
      intro hde
      exact hx (List.mem_map.mpr ⟨e, he, hde⟩)
    have hins : dictInsert acc x = acc ++ [x] := by
      simp [dictInsert, hanyf]
    have heq : (acc ++ [x]) ++ t = acc ++ x :: t := by simp
    have hnd : (((acc ++ [x]) ++ t).map (fun e => e.1)).Nodup := by
      rw [heq, List.map_append, List.map_cons]
      exact h
    show t.foldl dictInsert (dictInsert acc x) = acc ++ x :: t
    rw [hins, ih (acc ++ [x]) hnd, heq]

theorem buildDict_eq_self (l : List (ℤ × String))
    (h : (l.map (fun e => e.1)).Nodup) : buildDict l = l := by
  have := foldl_dictInsert_append l [] (by simpa using h)
  simpa [buildDict] using this

theorem dedupFirst_go_subset (l : List (ℤ × String)) :
    ∀ (seen : List (ℤ × String)), ∀ x ∈ dedupFirst.go seen l, x ∈ l := by
  induction l with
  | nil =>
    intro seen x hx
    exact absurd hx (List.not_mem_nil x)
  | cons y t ih =>
    intro seen x hx
    by_cases hy : y ∈ seen
    · rw [show dedupFirst.go seen (y :: t) = dedupFirst.go seen t by
        simp [dedupFirst.go, hy]] at hx
      exact List.mem_cons_of_mem y (ih seen x hx)
    · rw [show dedupFirst.go seen (y :: t) = y :: dedupFirst.go (y :: seen) t by
        simp [dedupFirst.go, hy]] at hx
      rcases List.mem_cons.mp hx with h | h
      · exact h ▸ List.mem_cons_self y t
      · exact List.mem_cons_of_mem y (ih (y :: seen) x h)

theorem dedupFirst_go_nodup (l : List (ℤ × String)) :
    ∀ seen : List (ℤ × String),
      (dedupFirst.go seen l).Nodup ∧ ∀ x ∈ dedupFirst.go seen l, x ∉ seen := by
  induction l with
  | nil =>
    intro seen
    exact ⟨List.nodup_nil, fun x hx => absurd hx (List.not_mem_nil x)⟩
  | cons y t ih =>
    intro seen
    by_cases hy : y ∈ seen
    · rw [show dedupFirst.go seen (y :: t) = dedupFirst.go seen t by
        simp [dedupFirst.go, hy]]
      exact ih seen
    · rw [show dedupFirst.go seen (y :: t) = y :: dedupFirst.go (y :: seen) t by
        simp [dedupFirst.go, hy]]
      obtain ⟨hnd, hmem⟩ := ih (y :: seen)
      refine ⟨List.nodup_cons.mpr ⟨?_, hnd⟩, ?_⟩
      · intro hc
        exact (hmem y hc) (List.mem_cons_self y seen)
      · intro x hx
        rcases List.mem_cons.mp hx with h | h
        · exact h ▸ hy
        · intro hc
          exact (hmem x h) (List.mem_cons_of_mem y hc)

theorem dedupFirst_nodup (l : List (ℤ × String)) : (dedupFirst l).Nodup :=
  (dedupFirst_go_nodup l []).1

theorem dedupFirst_subset {l : List (ℤ × String)} {x : ℤ × String}
    (hx : x ∈ dedupFirst l) : x ∈ l :=
  dedupFirst_go_subset l [] x hx

theorem keys_nodup_of_fd (l : List (ℤ × String)) (hnd : l.Nodup)
    (hfd : ∀ a ∈ l, ∀ b ∈ l, a.1 = b.1 → a.2 = b.2) :
    (l.map (fun e => e.1)).Nodup :=
  hnd.map_on (fun a ha b hb hab => Prod.ext hab (hfd a ha b hb hab))

/-! Metadata fixtures for the counterexample and witness. -/

def recApple : IncidentRecord :=
  ⟨2000, 4, "Apple", 1, "RegionOne", 1, 1, "Bombing", 0, "CityA", "sA"⟩

def recZebra : IncidentRecord :=
  ⟨2001, 4, "Zebra", 1, "RegionOne", 1, 1, "Bombing", 0, "CityB", "sB"⟩

def recMango : IncidentRecord :=
  ⟨2002, 5, "Mango", 1, "RegionOne", 1, 1, "Bombing", 0, "CityC", "sC"⟩

def idxDupId : DatasetIndex := ⟨[recApple, recZebra, recMango], []⟩

/-- C9 counterexample: an index where id 4 occurs with the two names
"Apple" and "Zebra".  The name-sorted distinct pairs are
(4, Apple), (5, Mango), (4, Zebra); `dict(zip(...))` then overwrites the
value at id 4 in place, producing entries Zebra before Mango — NOT
ascending by name.  So the claim that the returned maps are always
name-ascending is false. -/
theorem metadata_name_order_counterexample :
    ¬ (∀ (idx : DatasetIndex) (resp : MetadataResponse), MetadataRel (some idx) resp →
        keysNodup resp.countries ∧ namesAscending resp.countries ∧
        keysNodup resp.regions ∧ namesAscending resp.regions) := by
  intro h
  have hrel : MetadataRel (some idxDupId)
      ⟨[(4, "Zebra"), (5, "Mango")], [(1, "RegionOne")]⟩ :=
    ⟨[(4, "Apple"), (5, "Mango"), (4, "Zebra")], [(1, "RegionOne")],
      ⟨by decide, by decide⟩, ⟨by decide, by decide⟩, by decide⟩
  exact absurd (h idxDupId _ hrel).2.1 (by decide)

/-- C9 amended: the metadata maps never contain a duplicate id, and the
empty-index response is the empty pair of maps; the entries are ordered
by ascending name whenever each id carries a single name in the index
(true of the real dataset) — when an id occurs with several names, the
later duplicate overwrites the earlier entry in place and name order can
break. -/
theorem get_metadata_maps (idx : DatasetIndex) (resp : MetadataResponse)
    (h : MetadataRel (some idx) resp) :
    keysNodup resp.countries ∧ keysNodup resp.regions ∧
    ((∀ r₁ ∈ idx.df, ∀ r₂ ∈ idx.df, r₁.country = r₂.country →
        r₁.country_txt = r₂.country_txt) → namesAscending resp.countries) ∧
    ((∀ r₁ ∈ idx.df, ∀ r₂ ∈ idx.df, r₁.region = r₂.region →
        r₁.region_txt = r₂.region_txt) → namesAscending resp.regions) ∧
    (∀ resp₀, MetadataRel none resp₀ → resp₀ = ⟨[], []⟩) := by
  obtain ⟨cs, rs, ⟨hcp, hcs⟩, ⟨hrp, hrs⟩, hresp⟩ := h
  subst hresp
  refine ⟨keysNodup_buildDict cs, keysNodup_buildDict rs, ?_, ?_, fun _ h => h⟩
  · intro hfd
    have hfd' : ∀ a ∈ dedupFirst (idx.df.map (fun r => (r.country, r.country_txt))),
        ∀ b ∈ dedupFirst (idx.df.map (fun r => (r.country, r.country_txt))),
        a.1 = b.1 → a.2 = b.2 := by
      intro a ha b hb hab
      have ha' := dedupFirst_subset ha
      have hb' := dedupFirst_subset hb
      rw [List.mem_map] at ha' hb'
      obtain ⟨r₁, hr₁, rfl⟩ := ha'
      obtain ⟨r₂, hr₂, rfl⟩ := hb'
      exact hfd r₁ hr₁ r₂ hr₂ hab
    have hkeys := keys_nodup_of_fd _ (dedupFirst_nodup _) hfd'
    have hkeys_cs : (cs.map (fun e => e.1)).Nodup :=
      ((hcp.map (fun e => e.1)).nodup_iff).mpr hkeys
    show namesAscending (buildDict cs)
    rw [buildDict_eq_self cs hkeys_cs]
    exact hcs
  · intro hfd
    have hfd' : ∀ a ∈ dedupFirst (idx.df.map (fun r => (r.region, r.region_txt))),
        ∀ b ∈ dedupFirst (idx.df.map (fun r => (r.region, r.region_txt))),
        a.1 = b.1 → a.2 = b.2 := by
      intro a ha b hb hab
      have ha' := dedupFirst_subset ha
      have hb' := dedupFirst_subset hb
      rw [List.mem_map] at ha' hb'
      obtain ⟨r₁, hr₁, rfl⟩ := ha'
      obtain ⟨r₂, hr₂, rfl⟩ := hb'
      exact hfd r₁ hr₁ r₂ hr₂ hab
    have hkeys := keys_nodup_of_fd _ (dedupFirst_nodup _) hfd'
    have hkeys_rs : (rs.map (fun e => e.1)).Nodup :=
      ((hrp.map (fun e => e.1)).nodup_iff).mpr hkeys
    show namesAscending (buildDict rs)
    rw [buildDict_eq_self rs hkeys_rs]
    exact hrs

/-- C9 amended witness: a concrete two-row index with one country and
one region. -/
theorem get_metadata_maps_witness :
    MetadataRel (some idxW) ⟨[(4, "Afghanistan")], [(6, "South Asia")]⟩ ∧
    (keysNodup (MetadataResponse.mk [(4, "Afghanistan")] [(6, "South Asia")]).countries ∧
     keysNodup (MetadataResponse.mk [(4, "Afghanistan")] [(6, "South Asia")]).regions ∧
     ((∀ r₁ ∈ idxW.df, ∀ r₂ ∈ idxW.df, r₁.country = r₂.country →
         r₁.country_txt = r₂.country_txt) →
       namesAscending (MetadataResponse.mk [(4, "Afghanistan")] [(6, "South Asia")]).countries) ∧
     ((∀ r₁ ∈ idxW.df, ∀ r₂ ∈ idxW.df, r₁.region = r₂.region →
         r₁.region_txt = r₂.region_txt) →
       namesAscending (MetadataResponse.mk [(4, "Afghanistan")] [(6, "South Asia")]).regions) ∧
     (∀ resp₀, MetadataRel none resp₀ → resp₀ = ⟨[], []⟩)) :=
  ⟨⟨[(4, "Afghanistan")], [(6, "South Asia")],
      ⟨by decide, by decide⟩, ⟨by decide, by decide⟩, by decide⟩,
    get_metadata_maps idxW _
      ⟨[(4, "Afghanistan")], [(6, "South Asia")],
        ⟨by decide, by decide⟩, ⟨by decide, by decide⟩, by decide⟩⟩
